import Mathlib

/-!
Verification of the vuelos-flask flight-board scraper and cache.

The development shallowly embeds the two source layers:
* `src/scraper.py` (`TAMSScraperFinal`): ViewState extraction, table
  parsing, pagination with duplicate detection, and the four-phase
  aggregation `scrape_all_flights`;
* `src/app.py`: field normalisation (`normalizar_vuelo` and helpers) and
  the TTL cache `FlightDataCache`.

HTML documents are modelled structurally (`Doc`): the fields that
BeautifulSoup queries touch (input ids/names/values, table ids, row
classes, cells with tag kind / stripped text / colspan, anchor hrefs)
are carried explicitly.  Python dicts are association lists with
replace-or-append assignment (`dictSet`), preserving insertion order.
The HTTP session is an injected environment (`ScrapeEnv`) mapping each
postback of the protocol to the resulting document or a transport error;
clock readings are injected integers.
-/

set_option autoImplicit false

/-- Python dict assignment `d[k] = v`: replace the value of an existing
key in place, otherwise append the new pair at the end. -/
def dictSet {α : Type} : List (String × α) → String → α → List (String × α)
  | [], k, v => [(k, v)]
  | (k0, v0) :: rest, k, v =>
    if k0 = k then (k, v) :: rest else (k0, v0) :: dictSet rest k v

/-- Python `d.get(k)`: value of the first pair with the given key. -/
def dictGet {α : Type} (d : List (String × α)) (k : String) : Option α :=
  (d.find? (fun kv => kv.1 == k)).map (fun kv => kv.2)

/-- A flight record as produced by the scraper: a Python dict from column
name to stripped cell text. -/
abbrev Flight := List (String × String)

/-- A table cell.  `isTh` distinguishes `<th>` from `<td>`; `text` models
`get_text(strip=True)`; `colspan` models the `colspan` attribute. -/
structure Cell where
  isTh : Bool
  text : String
  colspan : Option String
deriving DecidableEq, Repr

/-- A table row: its `class` attribute, its cells, and the `href`
attributes of the anchors it contains, in document order. -/
structure Row where
  cls : Option String
  cells : List Cell
  hrefs : List String
deriving DecidableEq, Repr

/-- A table with its `id` attribute and its `<tr>` rows. -/
structure Table where
  id : String
  rows : List Row
deriving DecidableEq, Repr

/-- An `<input>` element: `id`, `name` and `value` attributes. -/
structure InputTag where
  id : Option String
  name : Option String
  value : Option String
deriving DecidableEq, Repr

/-- A parsed HTML document, restricted to what the scraper queries. -/
structure Doc where
  inputs : List InputTag
  tables : List Table
deriving DecidableEq, Repr

/-- Python truthiness of an optional string attribute: present and
non-empty. -/
def truthyAttr : Option String → Bool
  | some s => s ≠ ""
  | none => false

namespace TAMSScraperFinal

/-- The three hidden-field names of `extract_viewstate_data`
(`src/scraper.py` line 47). -/
def viewstateFieldNames : List String :=
  ["__VIEWSTATE", "__VIEWSTATEGENERATOR", "__EVENTVALIDATION"]

/-- Loop body of `extract_viewstate_data`: `soup.find('input', {'id':
field_name})` followed by the truthiness test `field and
field.get('value')` (`src/scraper.py` lines 48-49). -/
def viewstateField (doc : Doc) (field_name : String) : Option String :=
  match doc.inputs.find? (fun i => i.id == some field_name) with
  | some field =>
    match field.value with
    | some v => if v ≠ "" then some v else none
    | none => none
  | none => none

/-- Source `extract_viewstate_data` (`src/scraper.py` lines 43-54): collect the
three critical ASP.NET fields; a missing or empty field is only logged,
the loop continues and the (possibly partial) dict is returned. -/
def extract_viewstate_data (doc : Doc) : List (String × String) :=
  viewstateFieldNames.foldl (fun viewstate field_name =>
    match viewstateField doc field_name with
    | some v => dictSet viewstate field_name v
    | none => viewstate) []

/-- Source `get_hidden_fields` (`src/tams_scraper_final.py` lines 34-40): find
each field by `name`; if the tag exists, store `value` defaulted to the
empty string; a missing tag is silently skipped. -/
def get_hidden_fields (doc : Doc) : List (String × String) :=
  viewstateFieldNames.foldl (fun fields nm =>
    match doc.inputs.find? (fun i => i.name == some nm) with
    | some input_tag => dictSet fields nm (input_tag.value.getD "")
    | none => fields) []

/-- Source `row.find_all('td')`: the non-header cells of a row. -/
def rowCells (row : Row) : List Cell :=
  row.cells.filter (fun c => !c.isTh)

/-- The pagination-footer test of `parse_flights` (`src/scraper.py`
line 210): exactly one `<td>` and it carries a truthy `colspan`. -/
def isPagerRow (row : Row) : Bool :=
  match rowCells row with
  | [c] => truthyAttr c.colspan
  | _ => false

/-- Inner loop of `parse_flights` (lines 215-217): `flight[headers[idx]] =
cell_text` for each cell whose index is below the header count; cells
past the header count are ignored. -/
def buildFields (headers : List String) : List Cell → Nat → Flight → Flight
  | [], _, flight => flight
  | cell :: rest, idx, flight =>
    if idx < headers.length then
      buildFields headers rest (idx + 1) (dictSet flight (headers.getD idx "") cell.text)
    else
      buildFields headers rest (idx + 1) flight

/-- One emitted record (lines 214-217): the dict starts from the
direction tag `{'Tipo': flight_type}` and is filled column by column. -/
def buildFlight (flight_type : String) (headers : List String) (cells : List Cell) : Flight :=
  buildFields headers cells 0 [("Tipo", flight_type)]

/-- The row loop of `parse_flights` (lines 206-218): skip pagination
footers, emit a record only when the row has at least as many `<td>`
cells as there are headers. -/
def parseRows (flight_type : String) (headers : List String) : List Row → List Flight
  | [] => []
  | row :: rest =>
    if isPagerRow row then parseRows flight_type headers rest
    else if headers.length ≤ (rowCells row).length then
      buildFlight flight_type headers (rowCells row) :: parseRows flight_type headers rest
    else parseRows flight_type headers rest

/-- The grid id selected per direction (`src/scraper.py` line 194). -/
def gridTableId (flight_type : String) : String :=
  if flight_type == "Arribos" then "dgGrillaA" else "dgGrillaD"

/-- Source `parse_flights` (`src/scraper.py` lines 191-220): locate the grid,
return `[]` if it is absent or has fewer than two rows, read the headers
(`th` and `td`) from the first row, then run the row loop. -/
def parse_flights (doc : Doc) (flight_type : String) : List Flight :=
  match doc.tables.find? (fun t => t.id == gridTableId flight_type) with
  | none => []
  | some table =>
    match table.rows with
    | r0 :: r1 :: rest =>
      parseRows flight_type (r0.cells.map (fun c => c.text)) (r1 :: rest)
    | _ => []

/-- Projection of `parse_flights`: the header texts of the grid's first
row, when the grid exists and has at least two rows. -/
def parseHeaders (doc : Doc) (flight_type : String) : List String :=
  match doc.tables.find? (fun t => t.id == gridTableId flight_type) with
  | none => []
  | some table =>
    match table.rows with
    | r0 :: _ :: _ => r0.cells.map (fun c => c.text)
    | _ => []

/-- Projection of `parse_flights`: the rows the row loop walks
(`rows[1:]`), when the grid exists and has at least two rows. -/
def dataRows (doc : Doc) (flight_type : String) : List Row :=
  match doc.tables.find? (fun t => t.id == gridTableId flight_type) with
  | none => []
  | some table =>
    match table.rows with
    | _ :: r1 :: rest => r1 :: rest
    | _ => []

/-- The guard under which the row loop emits a record: not a pagination
footer, and at least as many `<td>` cells as headers. -/
def rowEligible (headers : List String) (row : Row) : Bool :=
  !isPagerRow row && headers.length ≤ (rowCells row).length

/-- Character-list version of `p.isPrefixOf q`, kept local. -/
def startsWith : List Char → List Char → Bool
  | [], _ => true
  | _ :: _, [] => false
  | p :: ps, c :: cs => p == c && startsWith ps cs

/-- The quote character `U+0027`. -/
def quoteChar : Char := Char.ofNat 39

/-- After the literal pattern of the regex has matched: the capture
`([^']+)` followed by the closing quote — at least one non-quote
character, and the quote must actually follow. -/
def captureAt (rest : List Char) : Option String :=
  let cap := rest.takeWhile (fun c => c != quoteChar)
  if cap = [] then none
  else if rest.drop cap.length = [] then none
  else some (String.mk cap)

/-- Source `re.search` for the pattern of `get_page_links` (`src/scraper.py`
line 238): scan left to right for the first position where the whole
pattern (literal opening, capture, closing quote) matches. -/
def searchPostback (pat : List Char) : List Char → Option String
  | [] => none
  | c :: cs =>
    if startsWith pat (c :: cs) then
      match captureAt ((c :: cs).drop pat.length) with
      | some target => some target
      | none => searchPostback pat cs
    else searchPostback pat cs

/-- The target extracted from one anchor's `href` (lines 237-241). -/
def extractPostbackTarget (href : String) : Option String :=
  searchPostback ("__doPostBack('".toList) href.toList

/-- Source `get_page_links` (`src/scraper.py` lines 222-243): the postback
targets embedded in the anchors of the grid's `Pager` row.  BeautifulSoup
matches the CSS class; the model compares the row's class attribute with
`"Pager"` directly. -/
def get_page_links (doc : Doc) (table_id : String) : List String :=
  match doc.tables.find? (fun t => t.id == table_id) with
  | none => []
  | some table =>
    match table.rows.find? (fun r => r.cls == some "Pager") with
    | none => []
    | some pager_row => pager_row.hrefs.filterMap extractPostbackTarget

/-- The HTTP session and remote server, injected.  Each field maps one
postback of the protocol to the parsed response document, or to a
transport error (`requests` raising).  `paginate` abstracts
`session.post` keyed by the pagination event target; the ViewState
payload carried by the request does not influence the modelled response. -/
structure ScrapeEnv where
  initial : Except String Doc
  depPost1 : Except String Doc
  depPost2 : Except String Doc
  winPost1 : String → String → Except String Doc
  winPost2 : String → String → Except String Doc
  paginate : String → Except String Doc

/-- Source `get_initial_page` (`src/scraper.py` lines 56-65): the initial GET;
`raise_for_status` failures surface as the environment's error. -/
def get_initial_page (env : ScrapeEnv) : Except String Doc :=
  env.initial

/-- Source `click_pagination` (lines 158-189): a single postback, no search
marker; the fresh ViewState is extracted from the response (data flow of
the tokens themselves is studied separately in `ViewStateTrace`). -/
def click_pagination (env : ScrapeEnv) (page_target : String) : Except String Doc :=
  env.paginate page_target

/-- Source `change_to_departures` (lines 67-108): dropdown postback, ViewState
refresh, then the `btnBuscar` postback whose response is returned. -/
def change_to_departures (env : ScrapeEnv) : Except String Doc := do
  let soup ← env.depPost1
  let _ := extract_viewstate_data soup
  env.depPost2

/-- Source `change_time_window_and_search` (lines 110-156): same two-postback
shape, varying the window field. -/
def change_time_window_and_search (env : ScrapeEnv) (flight_type hours : String) :
    Except String Doc := do
  let soup ← env.winPost1 flight_type hours
  let _ := extract_viewstate_data soup
  env.winPost2 flight_type hours

/-- The pagination loop of `scrape_all_pages` (lines 277-308), paired
with the list of pagination targets actually posted.  A transport error
is caught and breaks the loop (lines 306-308); a page whose first
record's `Vuelo` already occurs among the accumulated records breaks the
loop (lines 291-297); an empty page is skipped (lines 303-304). -/
def scrapeAllPagesGo (env : ScrapeEnv) (flight_type : String) :
    List String → List Flight → List Flight × List String
  | [], all_flights => (all_flights, [])
  | page_link :: rest, all_flights =>
    match click_pagination env page_link with
    | .error _ => (all_flights, [page_link])
    | .ok soup =>
      match parse_flights soup flight_type with
      | [] =>
        let r := scrapeAllPagesGo env flight_type rest all_flights
        (r.1, page_link :: r.2)
      | f0 :: _ =>
        if all_flights.any (fun f => dictGet f "Vuelo" == dictGet f0 "Vuelo") then
          (all_flights, [page_link])
        else
          let r := scrapeAllPagesGo env flight_type rest
            (all_flights ++ parse_flights soup flight_type)
          (r.1, page_link :: r.2)

/-- Source `scrape_all_pages` (lines 245-314) with fetch instrumentation: parse
page 1, read the pager links, and walk at most
`min (number of links) (max_pages - 1)` of them.  The second component
records which targets were posted.  (For `max_pages = 0` Python's
negative slice differs from this ℕ model; all call sites use
`max_pages = 3`.) -/
def scrape_all_pages_run (env : ScrapeEnv) (doc : Doc) (flight_type : String)
    (max_pages : Nat) : List Flight × List String :=
  let page1_flights := parse_flights doc flight_type
  let page_links := get_page_links doc (gridTableId flight_type)
  if page_links = [] then (page1_flights, [])
  else
    scrapeAllPagesGo env flight_type
      (page_links.take (min page_links.length (max_pages - 1))) page1_flights

/-- Source `scrape_all_pages` as the source returns it: only the flights.  The
refreshed ViewState threaded through the loop is NOT returned. -/
def scrape_all_pages (env : ScrapeEnv) (doc : Doc) (flight_type : String)
    (max_pages : Nat) : List Flight :=
  (scrape_all_pages_run env doc flight_type max_pages).1

/-- Source `scrape_all_flights` (`src/scraper.py` lines 316-364): the
four-phase aggregation.  Failures raised by the initial GET, the
direction switch or the window switches propagate; pagination failures
were already swallowed inside `scrape_all_pages`. -/
def scrape_all_flights (env : ScrapeEnv) :
    Except String (List Flight × List Flight) := do
  let soup ← get_initial_page env
  let arrivals_plus6 := scrape_all_pages env soup "Arribos" 3
  let soupD ← change_to_departures env
  let departures_plus6 := scrape_all_pages env soupD "Partidas" 3
  let soupA ← change_time_window_and_search env "A" "-1"
  let arrivals_minus1 := parse_flights soupA "Arribos"
  let soupDw ← change_time_window_and_search env "D" "-1"
  let departures_minus1 := parse_flights soupDw "Partidas"
  pure (arrivals_plus6 ++ arrivals_minus1, departures_plus6 ++ departures_minus1)

end TAMSScraperFinal

namespace ViewStateTrace

/-!
Token-provenance projection of `TAMSScraperFinal`.  Responses are
numbered in the order the session produces them; the token extracted
from response `n` is identified with `n`.  Each postback is recorded as
an `Exchange`: the response its ViewState token came from, and the
response it produces.  The initial GET (response 0) carries no token and
is not recorded.  Each function mirrors the variable flow of its source
namesake exactly; in particular `scrape_all_pages` refreshes its local
token after every click but — like the source function — returns only
the flights, so the caller's token variable is left untouched.
-/

/-- One postback: which response its token was extracted from, and the
index of the response it produced. -/
structure Exchange where
  tokenFrom : Nat
  respIdx : Nat
deriving DecidableEq, Repr

/-- Source `click_pagination` (`src/scraper.py` lines 158-189): one postback
with the current token; the new token is extracted immediately from the
response.  Returns (exchanges, new token, next response index). -/
def click_pagination (vs next : Nat) : List Exchange × Nat × Nat :=
  ([⟨vs, next⟩], next, next + 1)

/-- Source `change_to_departures` (lines 67-108): dropdown postback with the
current token, refresh, `btnBuscar` postback with the fresh token,
refresh again. -/
def change_to_departures (vs next : Nat) : List Exchange × Nat × Nat :=
  ([⟨vs, next⟩, ⟨next, next + 1⟩], next + 1, next + 2)

/-- Source `change_time_window_and_search` (lines 110-156): the same two-step
shape as the direction switch. -/
def change_time_window_and_search (vs next : Nat) : List Exchange × Nat × Nat :=
  ([⟨vs, next⟩, ⟨next, next + 1⟩], next + 1, next + 2)

/-- Source `scrape_all_pages` (lines 245-314) restricted to its token flow:
`clicks` pagination postbacks, the token rebinding after each one
(line 284).  The refreshed token is not part of the return value — the
source function returns only `all_flights`. -/
def scrape_all_pages : Nat → Nat → Nat → List Exchange × Nat
  | _, next, 0 => ([], next)
  | vs, next, clicks + 1 =>
    let r := click_pagination vs next
    let rest := scrape_all_pages r.2.1 r.2.2 clicks
    (r.1 ++ rest.1, rest.2)

/-- Source `scrape_all_flights` (lines 316-364) restricted to its token flow,
for a run with `aClicks` pagination postbacks in the arrivals phase and
`dClicks` in the departures phase.  Response 0 is the initial GET; the
token variable of the caller after each `scrape_all_pages` call is the
one it held before the call, because that function does not return its
refreshed token. -/
def scrape_all_flights (aClicks dClicks : Nat) : List Exchange :=
  let vs0 := 0
  let a := scrape_all_pages vs0 1 aClicks
  let d := change_to_departures vs0 a.2
  let p := scrape_all_pages d.2.1 d.2.2 dClicks
  let w1 := change_time_window_and_search d.2.1 p.2
  let w2 := change_time_window_and_search w1.2.1 w1.2.2
  a.1 ++ d.1 ++ p.1 ++ w1.1 ++ w2.1

/-- The freshness invariant of the spec: every postback carries the
token extracted from the immediately preceding response. -/
def fresh (es : List Exchange) : Prop :=
  ∀ e ∈ es, e.tokenFrom + 1 = e.respIdx

instance (es : List Exchange) : Decidable (fresh es) :=
  inferInstanceAs (Decidable (∀ e ∈ es, e.tokenFrom + 1 = e.respIdx))

end ViewStateTrace

/-- Source `limpiar_campo` (`src/app.py` lines 30-35): first listed key that is
present with a truthy (non-empty) value, stripped; `"---"` otherwise. -/
def limpiar_campo (obj : Flight) : List String → String
  | [] => "---"
  | clave :: rest =>
    match dictGet obj clave with
    | some v => if v ≠ "" then v.trim else limpiar_campo obj rest
    | none => limpiar_campo obj rest

/-- Source `extraer_fecha_hora` (`src/app.py` lines 37-61).  `raw.split()` is
modelled as splitting on whitespace and dropping empty pieces. -/
def extraer_fecha_hora (raw0 : String) : String × String :=
  if raw0 = "" then ("", "")
  else
    let raw := raw0.trim
    let partes := (raw.split Char.isWhitespace).filter (fun p => p ≠ "")
    if raw.contains ' ' ∧ 2 ≤ partes.length then
      ((partes.getD 0 "").replace "|" "/", partes.getD 1 "")
    else if raw.contains ' ' ∧ partes.length = 1 then
      ("", partes.getD 0 "")
    else if raw.contains '/' ∨ raw.contains '|' then
      (raw.replace "|" "/", "")
    else ("", raw)

/-- Source `limpiar_hora` (`src/app.py` lines 63-66). -/
def limpiar_hora (raw : String) : String :=
  (extraer_fecha_hora raw).2

/-- Source `normalizar_vuelo` (`src/app.py` lines 68-140): raw TAMS record to
the frontend shape, with the multi-encoding key variants copied verbatim
from the source. -/
def normalizar_vuelo (vuelo : Flight) (tipo : String) : Flight :=
  let cia := limpiar_campo vuelo
    ["Cia.", "CÃa.", "CÃ­a.", "Cía.", "Cia"]
  let num := (dictGet vuelo "Vuelo").getD ""
  let vuelo_full := (cia ++ " " ++ num).trim
  let matricula := limpiar_campo vuelo
    ["Matricula", "MatrÃcula", "MatrÃ­cula", "Matrícula"]
  let posicion := limpiar_campo vuelo
    ["Posicion", "PosiciÃ³n", "PosiciÃ³n", "Posición"]
  let fields :=
    if tipo = "dep" then
      let lugar := (dictGet vuelo "Destino").getD "---"
      let dato_extra := (dictGet vuelo "Puerta").getD "---"
      let prog := extraer_fecha_hora ((dictGet vuelo "STD").getD "")
      let est := extraer_fecha_hora ((dictGet vuelo "ETD").getD "")
      let real := extraer_fecha_hora ((dictGet vuelo "ATD").getD "")
      (lugar, dato_extra, prog, est, real)
    else
      let lugar := (dictGet vuelo "Origen").getD "---"
      let dato_extra := (dictGet vuelo "Cinta").getD "---"
      let prog := extraer_fecha_hora ((dictGet vuelo "STA").getD "")
      let est := extraer_fecha_hora ((dictGet vuelo "ETA").getD "")
      let real := extraer_fecha_hora ((dictGet vuelo "ATA").getD "")
      (lugar, dato_extra, prog, est, real)
  let fecha :=
    if fields.2.2.1.1 ≠ "" then fields.2.2.1.1
    else if fields.2.2.2.1.1 ≠ "" then fields.2.2.2.1.1
    else if fields.2.2.2.2.1 ≠ "" then fields.2.2.2.2.1
    else ""
  let estado := (dictGet vuelo "Remark").getD ""
  [("vuelo", vuelo_full),
   ("lugar", fields.1),
   ("fecha", fecha),
   ("hora_prog", fields.2.2.1.2),
   ("hora_est", fields.2.2.2.1.2),
   ("hora_real", fields.2.2.2.2.2),
   ("matricula", matricula),
   ("posicion", posicion),
   ("dato_extra", fields.2.1),
   ("estado", estado)]

/-- A value of the snapshot dict published by the cache: flight lists,
clock readings and counts, or strings.  Python's ISO timestamp string
and float elapsed time are modelled by integer clock readings. -/
inductive Val where
  | str : String → Val
  | int : Int → Val
  | flights : List Flight → Val
deriving DecidableEq, Repr

/-- The snapshot dict built in `get_or_refresh` (`src/app.py`
lines 208-214), plus dynamically added keys such as `warning`. -/
abbrev Dict := List (String × Val)

/-- Source `FlightDataCache.__init__` state (`src/app.py` lines 146-155).  The
`threading.Lock` has no observable state in this sequential model. -/
structure FlightDataCache where
  data : Option Dict
  timestamp : Option Int
  ttl : Int
  scraping_in_progress : Bool
  last_error : Option String
  scrape_count : Nat
  hit_count : Nat
  miss_count : Nat
deriving DecidableEq, Repr

/-- The stats dict of `get_stats` (`src/app.py` lines 249-259), as a
record with one field per key.  `hit_rate` is kept as the exact ratio;
Python's `round(·, 1)` on the float is not modelled. -/
structure Stats where
  hits : Nat
  misses : Nat
  hit_rate : ℚ
  scrape_count : Nat
  cache_age : Option Int
  ttl : Int
  is_expired : Bool
  has_data : Bool
  last_error : Option String
deriving DecidableEq, Repr

namespace FlightDataCache

/-- Source `is_expired` (`src/app.py` lines 157-161): no timestamp counts as
expired; otherwise the age must stay strictly below the TTL. -/
def is_expired (c : FlightDataCache) (now : Int) : Bool :=
  match c.timestamp with
  | none => true
  | some ts => decide (c.ttl ≤ now - ts)

/-- Source `get_age` (`src/app.py` lines 163-166). -/
def get_age (c : FlightDataCache) (now : Int) : Option Int :=
  c.timestamp.map (fun ts => now - ts)

/-- The outcome of one `get_or_refresh` call: the returned dict or the
propagated exception, the cache state afterwards, and whether the
network scrape ran during the call. -/
structure RefreshOutcome where
  result : Except String Dict
  cache : FlightDataCache
  scraped : Bool
deriving Repr

/-- The slow path of `get_or_refresh` (`src/app.py` lines 177-243).  In
this sequential model the double-check under the lock and the re-check
after the in-progress grace sleep re-evaluate the same condition on an
unchanged cache, so control falls through to the scrape: mark
in-progress, count the miss, run `scrape_all_flights`, normalise and
publish on success; on failure record the error and either return the
prior snapshot with a `warning` key added, or re-raise. -/
def refreshPath (c : FlightDataCache) (env : TAMSScraperFinal.ScrapeEnv)
    (now elapsed : Int) : RefreshOutcome :=
  let c1 : FlightDataCache :=
    { c with scraping_in_progress := true, miss_count := c.miss_count + 1 }
  match TAMSScraperFinal.scrape_all_flights env with
  | .ok raw =>
    let arribos_limpios := raw.1.map (fun v => normalizar_vuelo v "arr")
    let partidas_limpias := raw.2.map (fun v => normalizar_vuelo v "dep")
    let done := now + elapsed
    let new_data : Dict :=
      [("arribos", Val.flights arribos_limpios),
       ("partidas", Val.flights partidas_limpias),
       ("timestamp", Val.int done),
       ("scrape_time", Val.int elapsed),
       ("total_flights", Val.int (arribos_limpios.length + partidas_limpias.length))]
    ⟨.ok new_data,
     { c1 with data := some new_data, timestamp := some done, last_error := none,
               scrape_count := c1.scrape_count + 1, scraping_in_progress := false },
     true⟩
  | .error e =>
    let c2 := { c1 with last_error := some e, scraping_in_progress := false }
    match c1.data with
    | some d =>
      ⟨.ok (dictSet d "warning" (Val.str "Datos desactualizados")), c2, true⟩
    | none => ⟨.error e, c2, true⟩

/-- Source `get_or_refresh` (`src/app.py` lines 168-243): fast-path hit when a
snapshot exists and is not expired, otherwise the refresh path.  `now`
is the clock at entry and `elapsed` the scrape duration, so `now +
elapsed` is the publication instant. -/
def get_or_refresh (c : FlightDataCache) (env : TAMSScraperFinal.ScrapeEnv)
    (now elapsed : Int) : RefreshOutcome :=
  match c.data with
  | some d =>
    if is_expired c now then refreshPath c env now elapsed
    else ⟨.ok d, { c with hit_count := c.hit_count + 1 }, false⟩
  | none => refreshPath c env now elapsed

/-- Source `get_stats` (`src/app.py` lines 245-259): the report and the cache
afterwards (the method reads under the lock and writes nothing). -/
def get_stats (c : FlightDataCache) (now : Int) : Stats × FlightDataCache :=
  let total := c.hit_count + c.miss_count
  let hit_rate : ℚ := if 0 < total then (c.hit_count : ℚ) / (total : ℚ) * 100 else 0
  (⟨c.hit_count, c.miss_count, hit_rate, c.scrape_count, get_age c now, c.ttl,
    is_expired c now, c.data.isSome, c.last_error⟩, c)

/-- Source `clear` (`src/app.py` lines 261-264). -/
def clear (c : FlightDataCache) : FlightDataCache :=
  { c with data := none, timestamp := none }

end FlightDataCache

/-- C1.  Within a single scrape the postbacks do NOT all carry the token
of the immediately preceding response: as soon as the arrivals phase
executes one pagination postback, the direction switch is issued with
the token extracted from the initial response — two responses back —
because `scrape_all_pages` does not return its refreshed token.  With no
pagination the whole trace is fresh, confirming the staleness is a slip
of the pagination plumbing rather than the protocol design. -/
theorem scrape_all_flights_uses_stale_token :
    (⟨0, 2⟩ : ViewStateTrace.Exchange) ∈ ViewStateTrace.scrape_all_flights 1 0 ∧
    ¬ ViewStateTrace.fresh (ViewStateTrace.scrape_all_flights 1 0) ∧
    ViewStateTrace.fresh (ViewStateTrace.scrape_all_flights 0 0) := by
  refine ⟨by decide, by decide, by decide⟩

/-- C10.  `clear` resets only the snapshot and its timestamp; every
other cache field — the hit, miss and scrape counters, the last error,
the TTL and the in-progress flag — is unchanged. -/
theorem clear_resets_only_data_and_timestamp (c : FlightDataCache) :
    (c.clear).data = none ∧ (c.clear).timestamp = none ∧
    (c.clear).hit_count = c.hit_count ∧ (c.clear).miss_count = c.miss_count ∧
    (c.clear).scrape_count = c.scrape_count ∧ (c.clear).last_error = c.last_error ∧
    (c.clear).ttl = c.ttl ∧
    (c.clear).scraping_in_progress = c.scraping_in_progress := by
  simp [FlightDataCache.clear]

/-- C8 counterexample.  Two cache states that differ only in the
refresh-in-progress flag produce byte-identical stats reports, so the
report cannot include that flag: the claim that `stats` reports the
in-progress flag is false for this code. -/
theorem stats_omits_in_progress_flag :
    (FlightDataCache.get_stats ⟨none, none, 120, true, none, 0, 0, 0⟩ 0).1 =
      (FlightDataCache.get_stats ⟨none, none, 120, false, none, 0, 0, 0⟩ 0).1 ∧
    (⟨none, none, 120, true, none, 0, 0, 0⟩ : FlightDataCache).scraping_in_progress ≠
      (⟨none, none, 120, false, none, 0, 0, 0⟩ : FlightDataCache).scraping_in_progress := by
  refine ⟨rfl, by decide⟩

/-- C8 amended.  `get_stats` is read-only and reports exactly the hit
and miss counters, the exact hit ratio, the scrape counter, the current
age, the TTL, the expiry and data-presence flags and the last error —
but not the refresh-in-progress flag, which has no field in the report. -/
theorem get_stats_fields_read_only (c : FlightDataCache) (now : Int) :
    FlightDataCache.get_stats c now =
      (⟨c.hit_count, c.miss_count,
        if 0 < c.hit_count + c.miss_count then
          (c.hit_count : ℚ) / ((c.hit_count + c.miss_count : Nat) : ℚ) * 100
        else 0,
        c.scrape_count, c.get_age now, c.ttl, c.is_expired now, c.data.isSome,
        c.last_error⟩, c) := by
  rfl

/-- C2 counterexample.  A document carrying only `__VIEWSTATE` (with the
other two hidden fields missing) makes `extract_viewstate_data` return a
one-entry partial map; no error of any kind is raised — the claim that
extraction fails with ProtocolError and never returns a partial map is
false for this code. -/
theorem extract_viewstate_partial_map_no_error :
    TAMSScraperFinal.extract_viewstate_data
        ⟨[⟨some "__VIEWSTATE", some "__VIEWSTATE", some "x"⟩], []⟩ =
      [("__VIEWSTATE", "x")] := by
  decide

/-- C2 amended.  ViewState extraction is total and never fails: it
returns exactly the sub-map of the three required hidden fields that are
present with a non-empty value, in their canonical order, silently
omitting (only logging) the missing or empty ones. -/
theorem extract_viewstate_data_returns_present_subset (doc : Doc) :
    TAMSScraperFinal.extract_viewstate_data doc =
      TAMSScraperFinal.viewstateFieldNames.filterMap
        (fun f => (TAMSScraperFinal.viewstateField doc f).map (fun v => (f, v))) := by
  cases h1 : TAMSScraperFinal.viewstateField doc "__VIEWSTATE" <;>
  cases h2 : TAMSScraperFinal.viewstateField doc "__VIEWSTATEGENERATOR" <;>
  cases h3 : TAMSScraperFinal.viewstateField doc "__EVENTVALIDATION" <;>
  simp [TAMSScraperFinal.extract_viewstate_data, TAMSScraperFinal.viewstateFieldNames,
        List.foldl, List.filterMap, h1, h2, h3, dictSet]

/-- A server that fails every request with the same transport error. -/
def envDown : TAMSScraperFinal.ScrapeEnv :=
  ⟨.error "boom", .error "boom", .error "boom", fun _ _ => .error "boom",
   fun _ _ => .error "boom", fun _ => .error "boom"⟩

/-- A previously published snapshot, in the exact key layout
`get_or_refresh` builds. -/
def priorSnapshot : Dict :=
  [("arribos", Val.flights []), ("partidas", Val.flights []),
   ("timestamp", Val.int 0), ("scrape_time", Val.int 3),
   ("total_flights", Val.int 0)]

/-- C3 amended.  When the scrape raises: with a prior entry the call
returns that snapshot with only a `warning` key added (it does not
raise, and the error is recorded); with no prior entry the failure
propagates to the caller. -/
theorem stale_fallback_warning_only (c : FlightDataCache)
    (env : TAMSScraperFinal.ScrapeEnv) (now elapsed : Int) (e : String)
    (hfail : TAMSScraperFinal.scrape_all_flights env = .error e)
    (hexp : c.is_expired now = true) :
    (∀ d, c.data = some d →
      (FlightDataCache.get_or_refresh c env now elapsed).result =
          .ok (dictSet d "warning" (Val.str "Datos desactualizados")) ∧
        (FlightDataCache.get_or_refresh c env now elapsed).cache.last_error = some e) ∧
    (c.data = none →
      (FlightDataCache.get_or_refresh c env now elapsed).result = .error e) := by
  constructor
  · intro d hd
    simp [FlightDataCache.get_or_refresh, hd, hexp, FlightDataCache.refreshPath, hfail]
  · intro hd
    simp [FlightDataCache.get_or_refresh, hd, FlightDataCache.refreshPath, hfail]

/-- C3 witness: a cache whose entry is 200 seconds old with ttl 120 and
a failing scrape; the stale snapshot is served with the warning added,
and with no entry the same failure propagates. -/
theorem stale_fallback_warning_only_witness :
    (FlightDataCache.get_or_refresh
        ⟨some priorSnapshot, some 0, 120, false, none, 1, 0, 0⟩ envDown 200 0).result =
      .ok (dictSet priorSnapshot "warning" (Val.str "Datos desactualizados")) ∧
    (FlightDataCache.get_or_refresh
        ⟨none, none, 120, false, none, 0, 0, 0⟩ envDown 200 0).result =
      .error "boom" :=
  ⟨((stale_fallback_warning_only
      ⟨some priorSnapshot, some 0, 120, false, none, 1, 0, 0⟩ envDown 200 0 "boom"
      rfl rfl).1 priorSnapshot rfl).1,
   (stale_fallback_warning_only
      ⟨none, none, 120, false, none, 0, 0, 0⟩ envDown 200 0 "boom"
      rfl rfl).2 rfl⟩

/-- C3 counterexample.  With a prior entry of age 200s (ttl 120s) and a
failing scrape, the returned dict is exactly the prior snapshot plus the
`warning` key: the age of the entry (200) appears in no component of the
response, so the snapshot is NOT annotated with its age in seconds as
the claim states. -/
theorem stale_fallback_lacks_age_field :
    (FlightDataCache.get_or_refresh
        ⟨some priorSnapshot, some 0, 120, false, none, 1, 0, 0⟩ envDown 200 0).result =
      .ok (priorSnapshot ++ [("warning", Val.str "Datos desactualizados")]) ∧
    ∀ kv ∈ priorSnapshot ++ [("warning", Val.str "Datos desactualizados")],
      kv.2 ≠ Val.int 200 := by
  refine ⟨rfl, by decide⟩

/-- The snapshot dict published by a successful refresh at entry clock
`now` with scrape duration `elapsed`. -/
def publishDict (arr dep : List Flight) (now elapsed : Int) : Dict :=
  let arribos_limpios := arr.map (fun v => normalizar_vuelo v "arr")
  let partidas_limpias := dep.map (fun v => normalizar_vuelo v "dep")
  [("arribos", Val.flights arribos_limpios),
   ("partidas", Val.flights partidas_limpias),
   ("timestamp", Val.int (now + elapsed)),
   ("scrape_time", Val.int elapsed),
   ("total_flights", Val.int (arribos_limpios.length + partidas_limpias.length))]

/-- A successful pass through the refresh path publishes the new
snapshot, stamps it with the completion clock, clears the error and the
in-progress flag, and bumps the miss and scrape counters. -/
theorem refreshPath_ok (c : FlightDataCache) (env : TAMSScraperFinal.ScrapeEnv)
    (now elapsed : Int) (arr dep : List Flight)
    (hok : TAMSScraperFinal.scrape_all_flights env = .ok (arr, dep)) :
    FlightDataCache.refreshPath c env now elapsed =
      ⟨.ok (publishDict arr dep now elapsed),
       { c with data := some (publishDict arr dep now elapsed),
                timestamp := some (now + elapsed), last_error := none,
                scrape_count := c.scrape_count + 1,
                miss_count := c.miss_count + 1,
                scraping_in_progress := false },
       true⟩ := by
  simp [FlightDataCache.refreshPath, hok, publishDict]

/-- C5.  With ttl 120 and a working scrape: a first call on an empty
cache scrapes; a second call 1 second after the first call's publication
returns the identical snapshot with the scrape counter unchanged and no
network access; a third call made once the ttl has elapsed runs exactly
one new scrape, incrementing the scrape counter by exactly 1. -/
theorem cache_ttl_idempotence_and_refresh (c0 : FlightDataCache)
    (env : TAMSScraperFinal.ScrapeEnv) (t1 e1 e2 e3 : Int)
    (arr dep : List Flight)
    (hok : TAMSScraperFinal.scrape_all_flights env = .ok (arr, dep))
    (httl : c0.ttl = 120) (hdata : c0.data = none) :
    (FlightDataCache.get_or_refresh c0 env t1 e1).scraped = true ∧
    (FlightDataCache.get_or_refresh
        (FlightDataCache.get_or_refresh c0 env t1 e1).cache env
        (t1 + e1 + 1) e2).result =
      (FlightDataCache.get_or_refresh c0 env t1 e1).result ∧
    (FlightDataCache.get_or_refresh
        (FlightDataCache.get_or_refresh c0 env t1 e1).cache env
        (t1 + e1 + 1) e2).scraped = false ∧
    (FlightDataCache.get_or_refresh
        (FlightDataCache.get_or_refresh c0 env t1 e1).cache env
        (t1 + e1 + 1) e2).cache.scrape_count =
      (FlightDataCache.get_or_refresh c0 env t1 e1).cache.scrape_count ∧
    (FlightDataCache.get_or_refresh
        (FlightDataCache.get_or_refresh
          (FlightDataCache.get_or_refresh c0 env t1 e1).cache env
          (t1 + e1 + 1) e2).cache env (t1 + e1 + 120) e3).scraped = true ∧
    (FlightDataCache.get_or_refresh
        (FlightDataCache.get_or_refresh
          (FlightDataCache.get_or_refresh c0 env t1 e1).cache env
          (t1 + e1 + 1) e2).cache env (t1 + e1 + 120) e3).cache.scrape_count =
      (FlightDataCache.get_or_refresh c0 env t1 e1).cache.scrape_count + 1 := by
  have h1 : FlightDataCache.get_or_refresh c0 env t1 e1 =
      ⟨.ok (publishDict arr dep t1 e1),
       { c0 with data := some (publishDict arr dep t1 e1),
                 timestamp := some (t1 + e1), last_error := none,
                 scrape_count := c0.scrape_count + 1,
                 miss_count := c0.miss_count + 1,
                 scraping_in_progress := false },
       true⟩ := by
    rw [show FlightDataCache.get_or_refresh c0 env t1 e1 =
          FlightDataCache.refreshPath c0 env t1 e1 by
        simp [FlightDataCache.get_or_refresh, hdata]]
    exact refreshPath_ok c0 env t1 e1 arr dep hok
  rw [h1]
  have hage1 : t1 + e1 + 1 - (t1 + e1) = (1 : Int) := by ring
  have hexp1 : FlightDataCache.is_expired
      { c0 with data := some (publishDict arr dep t1 e1),
                timestamp := some (t1 + e1), last_error := none,
                scrape_count := c0.scrape_count + 1,
                miss_count := c0.miss_count + 1,
                scraping_in_progress := false } (t1 + e1 + 1) = false := by
    simp [FlightDataCache.is_expired, httl, hage1]
  have h2 : FlightDataCache.get_or_refresh
      { c0 with data := some (publishDict arr dep t1 e1),
                timestamp := some (t1 + e1), last_error := none,
                scrape_count := c0.scrape_count + 1,
                miss_count := c0.miss_count + 1,
                scraping_in_progress := false } env (t1 + e1 + 1) e2 =
      ⟨.ok (publishDict arr dep t1 e1),
       { c0 with data := some (publishDict arr dep t1 e1),
                 timestamp := some (t1 + e1), last_error := none,
                 scrape_count := c0.scrape_count + 1,
                 miss_count := c0.miss_count + 1,
                 scraping_in_progress := false,
                 hit_count := c0.hit_count + 1 },
       false⟩ := by
    simp [FlightDataCache.get_or_refresh, hexp1]
  rw [h2]
  have hage2 : t1 + e1 + 120 - (t1 + e1) = (120 : Int) := by ring
  have hexp2 : FlightDataCache.is_expired
      { c0 with data := some (publishDict arr dep t1 e1),
                timestamp := some (t1 + e1), last_error := none,
                scrape_count := c0.scrape_count + 1,
                miss_count := c0.miss_count + 1,
                scraping_in_progress := false,
                hit_count := c0.hit_count + 1 } (t1 + e1 + 120) = true := by
    simp [FlightDataCache.is_expired, httl, hage2]
  have h3 := refreshPath_ok
      { c0 with data := some (publishDict arr dep t1 e1),
                timestamp := some (t1 + e1), last_error := none,
                scrape_count := c0.scrape_count + 1,
                miss_count := c0.miss_count + 1,
                scraping_in_progress := false,
                hit_count := c0.hit_count + 1 } env (t1 + e1 + 120) e3 arr dep hok
  simp [FlightDataCache.get_or_refresh, hexp2, h3]

/-- A document with no inputs and no tables. -/
def emptyDoc : Doc := ⟨[], []⟩

/-- A server that answers every request with an empty page. -/
def envUp : TAMSScraperFinal.ScrapeEnv :=
  ⟨.ok emptyDoc, .ok emptyDoc, .ok emptyDoc, fun _ _ => .ok emptyDoc,
   fun _ _ => .ok emptyDoc, fun _ => .ok emptyDoc⟩

/-- C5 witness: concrete run of the three calls (publication at 5,
second call at 6, third at 125); the second call does not scrape. -/
theorem cache_ttl_idempotence_and_refresh_witness :
    (FlightDataCache.get_or_refresh
        (FlightDataCache.get_or_refresh
          ⟨none, none, 120, false, none, 0, 0, 0⟩ envUp 0 5).cache
        envUp 6 0).scraped = false :=
  (cache_ttl_idempotence_and_refresh ⟨none, none, 120, false, none, 0, 0, 0⟩
    envUp 0 5 0 0 [] [] rfl rfl rfl).2.2.1

/-- C4.  When the first record of the first additional page carries a
`Vuelo` key already accumulated from page 1, pagination halts at once:
that page contributes no records and the page-1 records are returned
unchanged as a valid (non-error) result, with exactly one pagination
postback issued. -/
theorem dedup_first_key_halts_pagination (env : TAMSScraperFinal.ScrapeEnv)
    (doc d2 : Doc) (flight_type t : String) (ts : List String)
    (max_pages : Nat) (f0 : Flight) (p2 : List Flight)
    (hlinks : TAMSScraperFinal.get_page_links doc
        (TAMSScraperFinal.gridTableId flight_type) = t :: ts)
    (hmax : 2 ≤ max_pages)
    (hfetch : env.paginate t = .ok d2)
    (hp2 : TAMSScraperFinal.parse_flights d2 flight_type = f0 :: p2)
    (hdup : ∃ f ∈ TAMSScraperFinal.parse_flights doc flight_type,
        dictGet f "Vuelo" = dictGet f0 "Vuelo") :
    TAMSScraperFinal.scrape_all_pages env doc flight_type max_pages =
        TAMSScraperFinal.parse_flights doc flight_type ∧
    (TAMSScraperFinal.scrape_all_pages_run env doc flight_type max_pages).2 = [t] := by
  have hk : ∃ k, (t :: ts).take (min (t :: ts).length (max_pages - 1)) = t :: k := by
    have h1 : 1 ≤ min (t :: ts).length (max_pages - 1) := by
      simp only [List.length_cons]
      omega
    cases hmn : min (t :: ts).length (max_pages - 1) with
    | zero => omega
    | succ n => exact ⟨ts.take n, by simp [List.take_succ_cons]⟩
  obtain ⟨k, hkeq⟩ := hk
  have hany : (TAMSScraperFinal.parse_flights doc flight_type).any
      (fun f => dictGet f "Vuelo" == dictGet f0 "Vuelo") = true := by
    rw [List.any_eq_true]
    obtain ⟨f, hf, he⟩ := hdup
    exact ⟨f, hf, by simp [he]⟩
  have hgo : TAMSScraperFinal.scrapeAllPagesGo env flight_type (t :: k)
      (TAMSScraperFinal.parse_flights doc flight_type) =
      (TAMSScraperFinal.parse_flights doc flight_type, [t]) := by
    simp [TAMSScraperFinal.scrapeAllPagesGo, TAMSScraperFinal.click_pagination,
      hfetch, hp2, hany]
  unfold TAMSScraperFinal.scrape_all_pages TAMSScraperFinal.scrape_all_pages_run
  rw [hlinks]
  dsimp only
  simp only [List.length_cons] at hkeq
  simp [hkeq, hgo]

/-- A header row with the single column `Vuelo`. -/
def vueloHeaderRow : Row := ⟨none, [⟨true, "Vuelo", none⟩], []⟩

/-- A data row with a single `<td>` holding a flight designator. -/
def vueloRow (v : String) : Row := ⟨none, [⟨false, v, none⟩], []⟩

/-- A DataGrid pagination footer: one `<td>` spanning the grid, whose
anchors carry the given hrefs. -/
def pagerRow (hrefs : List String) : Row :=
  ⟨some "Pager", [⟨false, "1 2 3 4 5 6", some "9"⟩], hrefs⟩

/-- The href of a DataGrid pager anchor for a postback target. -/
def pbHref (t : String) : String := "javascript:__doPostBack('" ++ t ++ "','')"

/-- An arrivals grid (`dgGrillaA`) listing the given flights, with a
pager footer advertising the given postback targets (omitted when there
are none). -/
def arrGridDoc (vals : List String) (links : List String) : Doc :=
  ⟨[], [⟨"dgGrillaA",
    vueloHeaderRow :: (vals.map vueloRow ++
      (if links = [] then [] else [pagerRow (links.map pbHref)]))⟩]⟩

/-- Page 1 of the arrivals grid: three flights, one more page advertised. -/
def arrPage1Doc : Doc := arrGridDoc ["AR1000", "AR2000", "AR3000"] ["pgA2"]

/-- A page whose first (and only) record repeats `AR2000` from page 1. -/
def arrPage2DupDoc : Doc := arrGridDoc ["AR2000"] []

/-- A server whose every pagination postback returns the repeated page. -/
def envDup : TAMSScraperFinal.ScrapeEnv :=
  ⟨.ok arrPage1Doc, .ok emptyDoc, .ok emptyDoc, fun _ _ => .ok emptyDoc,
   fun _ _ => .ok emptyDoc, fun _ => .ok arrPage2DupDoc⟩

/-- C4 witness: page 1 yields keys {AR1000, AR2000, AR3000}; page 2's
first record's key is AR2000; the run returns exactly the page-1 records
after a single pagination postback. -/
theorem dedup_first_key_halts_pagination_witness :
    TAMSScraperFinal.scrape_all_pages envDup arrPage1Doc "Arribos" 3 =
        TAMSScraperFinal.parse_flights arrPage1Doc "Arribos" ∧
    (TAMSScraperFinal.scrape_all_pages_run envDup arrPage1Doc "Arribos" 3).2 = ["pgA2"] :=
  dedup_first_key_halts_pagination envDup arrPage1Doc arrPage2DupDoc "Arribos"
    "pgA2" [] 3 [("Tipo", "Arribos"), ("Vuelo", "AR2000")] []
    (by decide) (by decide) rfl (by decide) (by decide)

/-- The pagination loop posts its targets strictly in list order and
stops somewhere along the list: the posted targets always form an
initial segment of the targets it was given. -/
theorem scrapeAllPagesGo_fetched_init (env : TAMSScraperFinal.ScrapeEnv)
    (flight_type : String) :
    ∀ (targets : List String) (all_flights : List Flight), ∃ rest,
      targets =
        (TAMSScraperFinal.scrapeAllPagesGo env flight_type targets all_flights).2 ++ rest := by
  intro targets
  induction targets with
  | nil => intro all_flights; exact ⟨[], rfl⟩
  | cons t ts ih =>
    intro all_flights
    simp only [TAMSScraperFinal.scrapeAllPagesGo, TAMSScraperFinal.click_pagination]
    cases h : env.paginate t with
    | error e => exact ⟨ts, rfl⟩
    | ok soup =>
      cases h2 : TAMSScraperFinal.parse_flights soup flight_type with
      | nil =>
        obtain ⟨rest, hrest⟩ := ih all_flights
        exact ⟨rest, by simp [h2]; exact hrest⟩
      | cons f0 p2 =>
        by_cases hd : (all_flights.any
            (fun f => dictGet f "Vuelo" == dictGet f0 "Vuelo")) = true
        · exact ⟨ts, by simp [h2, hd]⟩
        · obtain ⟨rest, hrest⟩ := ih
            (all_flights ++ TAMSScraperFinal.parse_flights soup flight_type)
          refine ⟨rest, ?_⟩
          rw [h2] at hrest
          simp only [Bool.not_eq_true] at hd
          simp [hd, h2]
          exact hrest

/-- Page 1 of the arrivals grid advertising five further pages. -/
def arrFiveLinksDoc : Doc :=
  arrGridDoc ["AR1000", "AR2000", "AR3000"] ["pgA2", "pgA3", "pgA4", "pgA5", "pgA6"]

/-- A server answering every pagination postback with the repeated page. -/
def envDup5 : TAMSScraperFinal.ScrapeEnv :=
  ⟨.ok arrFiveLinksDoc, .ok emptyDoc, .ok emptyDoc, fun _ _ => .ok emptyDoc,
   fun _ _ => .ok emptyDoc, fun _ => .ok arrPage2DupDoc⟩

/-- A server answering the first two pagination targets with pages of
fresh flights and everything else with an empty page. -/
def envFresh5 : TAMSScraperFinal.ScrapeEnv :=
  ⟨.ok arrFiveLinksDoc, .ok emptyDoc, .ok emptyDoc, fun _ _ => .ok emptyDoc,
   fun _ _ => .ok emptyDoc,
   fun t =>
     if t = "pgA2" then .ok (arrGridDoc ["AR4000"] [])
     else if t = "pgA3" then .ok (arrGridDoc ["AR5000"] [])
     else .ok emptyDoc⟩

/-- C7 counterexample.  A run with max-pages 3 and a response
advertising 5 pager links in which only ONE additional page is fetched:
page 2 repeats a page-1 record, so the loop halts before fetching page 3
— the number of additional pages fetched is not always
`min(advertised, max-pages - 1)`. -/
theorem five_links_max3_early_halt :
    (TAMSScraperFinal.get_page_links arrFiveLinksDoc "dgGrillaA").length = 5 ∧
    (TAMSScraperFinal.scrape_all_pages_run envDup5 arrFiveLinksDoc "Arribos" 3).2 =
      ["pgA2"] := by
  refine ⟨by decide, by decide⟩

/-- C7 amended.  For max-pages ≥ 1 (the model of Python's slice is
faithful there; all call sites use 3), the pagination targets actually
posted always form an initial segment of the first
`min(advertised, max-pages - 1)` advertised links — so a link past that
bound, such as page 4's with 5 links and max-pages 3, is never followed
— and when every fetch succeeds and no duplicate first record appears,
exactly that many additional pages are fetched, as in the concrete
5-link / max-pages-3 run where pages 2 and 3 are fetched and page 4's
link is not. -/
theorem pagination_fetch_bound (env : TAMSScraperFinal.ScrapeEnv) (doc : Doc)
    (flight_type : String) (max_pages : Nat) (_hmp : 1 ≤ max_pages) :
    (∃ rest,
      (TAMSScraperFinal.get_page_links doc
          (TAMSScraperFinal.gridTableId flight_type)).take
          (min (TAMSScraperFinal.get_page_links doc
              (TAMSScraperFinal.gridTableId flight_type)).length (max_pages - 1)) =
        (TAMSScraperFinal.scrape_all_pages_run env doc flight_type max_pages).2 ++ rest) ∧
    (TAMSScraperFinal.scrape_all_pages_run envFresh5 arrFiveLinksDoc "Arribos" 3).2 =
        ["pgA2", "pgA3"] ∧
    "pgA4" ∉ (TAMSScraperFinal.scrape_all_pages_run envFresh5 arrFiveLinksDoc "Arribos" 3).2 := by
  refine ⟨?_, by decide, by decide⟩
  unfold TAMSScraperFinal.scrape_all_pages_run
  by_cases hl : TAMSScraperFinal.get_page_links doc
      (TAMSScraperFinal.gridTableId flight_type) = []
  · rw [hl]; simp
  · dsimp only
    rw [if_neg hl]
    exact scrapeAllPagesGo_fetched_init env flight_type _ _

/-- C7 witness for the amended bound, at the concrete 5-link run. -/
theorem pagination_fetch_bound_witness :
    ∃ rest,
      (TAMSScraperFinal.get_page_links arrFiveLinksDoc
          (TAMSScraperFinal.gridTableId "Arribos")).take
          (min (TAMSScraperFinal.get_page_links arrFiveLinksDoc
              (TAMSScraperFinal.gridTableId "Arribos")).length (3 - 1)) =
        (TAMSScraperFinal.scrape_all_pages_run envFresh5 arrFiveLinksDoc "Arribos" 3).2 ++
          rest :=
  (pagination_fetch_bound envFresh5 arrFiveLinksDoc "Arribos" 3 (by decide)).1

/-- A server whose initial page advertises a second arrivals page but
whose every pagination postback fails with a transport error; all other
postbacks succeed with empty pages. -/
def envHalf : TAMSScraperFinal.ScrapeEnv :=
  ⟨.ok arrPage1Doc, .ok emptyDoc, .ok emptyDoc, fun _ _ => .ok emptyDoc,
   fun _ _ => .ok emptyDoc, fun _ => .error "timeout"⟩

/-- C6 counterexample.  A failure during pagination within the arrivals
phase does NOT abort the aggregation: the pagination postback for the
advertised page 2 fails, yet `scrape_all_flights` returns a valid
(non-error) result assembled from the partially completed work — the
page-1 arrivals only. -/
theorem pagination_failure_not_aborting :
    envHalf.paginate "pgA2" = .error "timeout" ∧
    TAMSScraperFinal.get_page_links arrPage1Doc "dgGrillaA" = ["pgA2"] ∧
    TAMSScraperFinal.scrape_all_flights envHalf =
      .ok (TAMSScraperFinal.parse_flights arrPage1Doc "Arribos", []) := by
  refine ⟨rfl, by decide, rfl⟩

/-- C6 amended.  A failure raised by the initial load, the direction
switch (either of its two postbacks) or a time-window switch (either
postback of either window) aborts the whole aggregation with that error
and no partial result; but when those six top-level postbacks succeed
the aggregation always returns a valid result, whatever happens during
pagination inside the phases — pagination failures are caught there and
only truncate the affected phase. -/
theorem aggregation_abort_behaviour (env : TAMSScraperFinal.ScrapeEnv) :
    (∀ e, env.initial = .error e →
      TAMSScraperFinal.scrape_all_flights env = .error e) ∧
    (∀ e d0, env.initial = .ok d0 → env.depPost1 = .error e →
      TAMSScraperFinal.scrape_all_flights env = .error e) ∧
    (∀ e d0 d1, env.initial = .ok d0 → env.depPost1 = .ok d1 →
      env.depPost2 = .error e →
      TAMSScraperFinal.scrape_all_flights env = .error e) ∧
    (∀ e d0 d1 d2, env.initial = .ok d0 → env.depPost1 = .ok d1 →
      env.depPost2 = .ok d2 → env.winPost1 "A" "-1" = .error e →
      TAMSScraperFinal.scrape_all_flights env = .error e) ∧
    (∀ e d0 d1 d2 wa1, env.initial = .ok d0 → env.depPost1 = .ok d1 →
      env.depPost2 = .ok d2 → env.winPost1 "A" "-1" = .ok wa1 →
      env.winPost2 "A" "-1" = .error e →
      TAMSScraperFinal.scrape_all_flights env = .error e) ∧
    (∀ e d0 d1 d2 wa1 wa2, env.initial = .ok d0 → env.depPost1 = .ok d1 →
      env.depPost2 = .ok d2 → env.winPost1 "A" "-1" = .ok wa1 →
      env.winPost2 "A" "-1" = .ok wa2 → env.winPost1 "D" "-1" = .error e →
      TAMSScraperFinal.scrape_all_flights env = .error e) ∧
    (∀ e d0 d1 d2 wa1 wa2 wd1, env.initial = .ok d0 → env.depPost1 = .ok d1 →
      env.depPost2 = .ok d2 → env.winPost1 "A" "-1" = .ok wa1 →
      env.winPost2 "A" "-1" = .ok wa2 → env.winPost1 "D" "-1" = .ok wd1 →
      env.winPost2 "D" "-1" = .error e →
      TAMSScraperFinal.scrape_all_flights env = .error e) ∧
    (∀ d0 d1 d2 wa1 wa2 wd1 wd2, env.initial = .ok d0 → env.depPost1 = .ok d1 →
      env.depPost2 = .ok d2 → env.winPost1 "A" "-1" = .ok wa1 →
      env.winPost2 "A" "-1" = .ok wa2 → env.winPost1 "D" "-1" = .ok wd1 →
      env.winPost2 "D" "-1" = .ok wd2 →
      TAMSScraperFinal.scrape_all_flights env =
        .ok (TAMSScraperFinal.scrape_all_pages env d0 "Arribos" 3 ++
               TAMSScraperFinal.parse_flights wa2 "Arribos",
             TAMSScraperFinal.scrape_all_pages env d2 "Partidas" 3 ++
               TAMSScraperFinal.parse_flights wd2 "Partidas")) := by
  refine ⟨?_, ?_, ?_, ?_, ?_, ?_, ?_, ?_⟩
  · intro e he
    unfold TAMSScraperFinal.scrape_all_flights TAMSScraperFinal.get_initial_page
      TAMSScraperFinal.change_to_departures TAMSScraperFinal.change_time_window_and_search
    rw [he]
    rfl
  · intro e d0 h0 h1
    unfold TAMSScraperFinal.scrape_all_flights TAMSScraperFinal.get_initial_page
      TAMSScraperFinal.change_to_departures TAMSScraperFinal.change_time_window_and_search
    rw [h0, h1]
    rfl
  · intro e d0 d1 h0 h1 h2
    unfold TAMSScraperFinal.scrape_all_flights TAMSScraperFinal.get_initial_page
      TAMSScraperFinal.change_to_departures TAMSScraperFinal.change_time_window_and_search
    rw [h0, h1, h2]
    rfl
  · intro e d0 d1 d2 h0 h1 h2 h3
    unfold TAMSScraperFinal.scrape_all_flights TAMSScraperFinal.get_initial_page
      TAMSScraperFinal.change_to_departures TAMSScraperFinal.change_time_window_and_search
    rw [h0, h1, h2, h3]
    rfl
  · intro e d0 d1 d2 wa1 h0 h1 h2 h3 h4
    unfold TAMSScraperFinal.scrape_all_flights TAMSScraperFinal.get_initial_page
      TAMSScraperFinal.change_to_departures TAMSScraperFinal.change_time_window_and_search
    rw [h0, h1, h2, h3, h4]
    rfl
  · intro e d0 d1 d2 wa1 wa2 h0 h1 h2 h3 h4 h5
    unfold TAMSScraperFinal.scrape_all_flights TAMSScraperFinal.get_initial_page
      TAMSScraperFinal.change_to_departures TAMSScraperFinal.change_time_window_and_search
    rw [h0, h1, h2, h3, h4, h5]
    rfl
  · intro e d0 d1 d2 wa1 wa2 wd1 h0 h1 h2 h3 h4 h5 h6
    unfold TAMSScraperFinal.scrape_all_flights TAMSScraperFinal.get_initial_page
      TAMSScraperFinal.change_to_departures TAMSScraperFinal.change_time_window_and_search
    rw [h0, h1, h2, h3, h4, h5, h6]
    rfl
  · intro d0 d1 d2 wa1 wa2 wd1 wd2 h0 h1 h2 h3 h4 h5 h6
    unfold TAMSScraperFinal.scrape_all_flights TAMSScraperFinal.get_initial_page
      TAMSScraperFinal.change_to_departures TAMSScraperFinal.change_time_window_and_search
    rw [h0, h1, h2, h3, h4, h5, h6]
    rfl

/-- C6 witness: a server that is down from the first request makes the
aggregation abort with that error. -/
theorem aggregation_abort_behaviour_witness :
    TAMSScraperFinal.scrape_all_flights envDown = .error "boom" :=
  (aggregation_abort_behaviour envDown).1 "boom" rfl

/-- A defaulted index read within bounds lands in the list. -/
theorem getD_mem_of_lt (l : List String) (i : Nat) (d : String) (h : i < l.length) :
    l.getD i d ∈ l := by
  induction l generalizing i with
  | nil => simp at h
  | cons a t ih =>
    cases i with
    | zero => simp
    | succ n =>
      simp only [List.getD_cons_succ]
      exact List.mem_cons_of_mem a (ih n (by simpa using h))

/-- Keys after a dict assignment: the assigned key or a pre-existing one. -/
theorem dictSet_keys_subset {α : Type} (k : String) (v : α) :
    ∀ (fl : List (String × α)), ∀ x ∈ (dictSet fl k v).map Prod.fst,
      x = k ∨ x ∈ fl.map Prod.fst := by
  intro fl
  induction fl with
  | nil =>
    intro x hx
    simp [dictSet] at hx
    exact Or.inl hx
  | cons p rest ih =>
    obtain ⟨k0, v0⟩ := p
    intro x hx
    by_cases hk : k0 = k
    · simp [dictSet, hk] at hx
      rcases hx with h | h
      · exact Or.inl h
      · exact Or.inr (by simp [h])
    · simp [dictSet, hk] at hx
      rcases hx with h | h
      · exact Or.inr (by simp [h])
      · rcases ih x (by simpa using h) with h2 | h2
        · exact Or.inl h2
        · exact Or.inr (by simp [h2])

/-- Dict assignment preserves key uniqueness. -/
theorem dictSet_keys_nodup {α : Type} (k : String) (v : α) :
    ∀ (fl : List (String × α)), (fl.map Prod.fst).Nodup →
      ((dictSet fl k v).map Prod.fst).Nodup := by
  intro fl
  induction fl with
  | nil => intro _; simp [dictSet]
  | cons p rest ih =>
    obtain ⟨k0, v0⟩ := p
    intro hnd
    simp only [List.map_cons, List.nodup_cons] at hnd
    by_cases hk : k0 = k
    · simp only [dictSet, if_pos hk, List.map_cons, List.nodup_cons]
      exact ⟨by simpa [hk] using hnd.1, hnd.2⟩
    · simp only [dictSet, if_neg hk, List.map_cons, List.nodup_cons]
      refine ⟨?_, ih hnd.2⟩
      intro hmem
      rcases dictSet_keys_subset k v rest k0 hmem with h | h
      · exact hk h
      · exact hnd.1 h

/-- Dict assignment leaves the lookup of every other key unchanged. -/
theorem dictGet_dictSet_ne {α : Type} (k k2 : String) (v : α) (hne : k2 ≠ k) :
    ∀ (fl : List (String × α)), dictGet (dictSet fl k v) k2 = dictGet fl k2 := by
  intro fl
  induction fl with
  | nil => simp [dictSet, dictGet, Ne.symm hne]
  | cons p rest ih =>
    obtain ⟨k0, v0⟩ := p
    by_cases hk : k0 = k
    · subst hk
      simp [dictSet, dictGet, Ne.symm hne]
    · simp only [dictSet, if_neg hk]
      by_cases h2 : k0 = k2
      · simp [dictGet, h2]
      · simp only [dictGet, List.find?_cons] at ih ⊢
        have : ((k0, v0).1 == k2) = false := by simpa using h2
        simp [this, ih]

/-- Keys of the cell-filling loop: pre-existing keys or header names. -/
theorem buildFields_keys_subset (headers : List String) :
    ∀ (cells : List Cell) (idx : Nat) (flight : Flight),
      ∀ x ∈ (TAMSScraperFinal.buildFields headers cells idx flight).map Prod.fst,
        x ∈ flight.map Prod.fst ∨ x ∈ headers := by
  intro cells
  induction cells with
  | nil =>
    intro idx flight x hx
    exact Or.inl (by simpa [TAMSScraperFinal.buildFields] using hx)
  | cons cell rest ih =>
    intro idx flight x hx
    by_cases hidx : idx < headers.length
    · simp only [TAMSScraperFinal.buildFields, if_pos hidx] at hx
      rcases ih (idx + 1) (dictSet flight (headers.getD idx "") cell.text) x hx with h | h
      · rcases dictSet_keys_subset (headers.getD idx "") cell.text flight x h with h2 | h2
        · exact Or.inr (h2 ▸ getD_mem_of_lt headers idx "" hidx)
        · exact Or.inl h2
      · exact Or.inr h
    · simp only [TAMSScraperFinal.buildFields, if_neg hidx] at hx
      exact ih (idx + 1) flight x hx

/-- The cell-filling loop preserves key uniqueness. -/
theorem buildFields_keys_nodup (headers : List String) :
    ∀ (cells : List Cell) (idx : Nat) (flight : Flight),
      (flight.map Prod.fst).Nodup →
      ((TAMSScraperFinal.buildFields headers cells idx flight).map Prod.fst).Nodup := by
  intro cells
  induction cells with
  | nil =>
    intro idx flight h
    simpa [TAMSScraperFinal.buildFields] using h
  | cons cell rest ih =>
    intro idx flight h
    by_cases hidx : idx < headers.length
    · simp only [TAMSScraperFinal.buildFields, if_pos hidx]
      exact ih (idx + 1) _ (dictSet_keys_nodup (headers.getD idx "") cell.text flight h)
    · simp only [TAMSScraperFinal.buildFields, if_neg hidx]
      exact ih (idx + 1) flight h

/-- The cell-filling loop never touches a key that is not a header. -/
theorem buildFields_dictGet_not_header (headers : List String) (k : String)
    (hk : k ∉ headers) :
    ∀ (cells : List Cell) (idx : Nat) (flight : Flight),
      dictGet (TAMSScraperFinal.buildFields headers cells idx flight) k =
        dictGet flight k := by
  intro cells
  induction cells with
  | nil =>
    intro idx flight
    simp [TAMSScraperFinal.buildFields]
  | cons cell rest ih =>
    intro idx flight
    by_cases hidx : idx < headers.length
    · simp only [TAMSScraperFinal.buildFields, if_pos hidx]
      rw [ih (idx + 1) _]
      exact dictGet_dictSet_ne (headers.getD idx "") k cell.text
        (fun he => hk (he ▸ getD_mem_of_lt headers idx "" hidx)) flight
    · simp only [TAMSScraperFinal.buildFields, if_neg hidx]
      exact ih (idx + 1) flight

/-- The row loop emits exactly one record per eligible row. -/
theorem parseRows_length (flight_type : String) (headers : List String) :
    ∀ (rows : List Row),
      (TAMSScraperFinal.parseRows flight_type headers rows).length =
        (rows.filter (TAMSScraperFinal.rowEligible headers)).length := by
  intro rows
  induction rows with
  | nil => simp [TAMSScraperFinal.parseRows]
  | cons row rest ih =>
    by_cases hp : TAMSScraperFinal.isPagerRow row = true
    · have he : TAMSScraperFinal.rowEligible headers row = false := by
        simp [TAMSScraperFinal.rowEligible, hp]
      simp [TAMSScraperFinal.parseRows, hp, he, ih]
    · by_cases hlen : headers.length ≤ (TAMSScraperFinal.rowCells row).length
      · have he : TAMSScraperFinal.rowEligible headers row = true := by
          simp [TAMSScraperFinal.rowEligible, hp, hlen]
        simp [TAMSScraperFinal.parseRows, hp, hlen, he, ih]
      · have he : TAMSScraperFinal.rowEligible headers row = false := by
          simp [TAMSScraperFinal.rowEligible, hp, hlen]
        simp [TAMSScraperFinal.parseRows, hp, hlen, he, ih]

/-- Every record the row loop emits is built from one of its rows. -/
theorem parseRows_mem (flight_type : String) (headers : List String) :
    ∀ (rows : List Row) (rec : Flight),
      rec ∈ TAMSScraperFinal.parseRows flight_type headers rows →
      ∃ row ∈ rows,
        rec = TAMSScraperFinal.buildFlight flight_type headers
          (TAMSScraperFinal.rowCells row) := by
  intro rows
  induction rows with
  | nil => intro rec h; simp [TAMSScraperFinal.parseRows] at h
  | cons row rest ih =>
    intro rec h
    by_cases hp : TAMSScraperFinal.isPagerRow row = true
    · simp only [TAMSScraperFinal.parseRows, if_pos hp] at h
      obtain ⟨r, hr, he⟩ := ih rec h
      exact ⟨r, List.mem_cons_of_mem row hr, he⟩
    · by_cases hlen : headers.length ≤ (TAMSScraperFinal.rowCells row).length
      · simp only [TAMSScraperFinal.parseRows, if_neg hp, if_pos hlen,
          List.mem_cons] at h
        rcases h with h | h
        · exact ⟨row, List.mem_cons_self row rest, h⟩
        · obtain ⟨r, hr, he⟩ := ih rec h
          exact ⟨r, List.mem_cons_of_mem row hr, he⟩
      · simp only [TAMSScraperFinal.parseRows, if_neg hp, if_neg hlen] at h
        obtain ⟨r, hr, he⟩ := ih rec h
        exact ⟨r, List.mem_cons_of_mem row hr, he⟩

/-- Factoring lemma: `parse_flights` runs through its projections: it runs the row
loop over `dataRows` with `parseHeaders`. -/
theorem parse_flights_eq_parseRows (doc : Doc) (flight_type : String) :
    TAMSScraperFinal.parse_flights doc flight_type =
      TAMSScraperFinal.parseRows flight_type
        (TAMSScraperFinal.parseHeaders doc flight_type)
        (TAMSScraperFinal.dataRows doc flight_type) := by
  unfold TAMSScraperFinal.parse_flights TAMSScraperFinal.parseHeaders
    TAMSScraperFinal.dataRows
  cases doc.tables.find?
      (fun t => t.id == TAMSScraperFinal.gridTableId flight_type) with
  | none => simp [TAMSScraperFinal.parseRows]
  | some table =>
    dsimp only
    cases table.rows with
    | nil => simp [TAMSScraperFinal.parseRows]
    | cons r0 rs =>
      cases rs with
      | nil => simp [TAMSScraperFinal.parseRows]
      | cons r1 rest => rfl

/-- C9 amended.  The table parser is total; it emits exactly one record
per data row that is not a pagination footer and has at least as many
cells as the header row (short rows contribute nothing); every emitted
record has pairwise-distinct keys drawn from the direction-tag key
`Tipo` plus the header set (cells beyond the header count are ignored);
and the `Tipo` entry holds the direction tag — except when a header
column is itself named `Tipo`, in which case that column's cell value
overwrites the tag. -/
theorem parse_flights_row_shape (doc : Doc) (flight_type : String) :
    (TAMSScraperFinal.parse_flights doc flight_type).length =
      ((TAMSScraperFinal.dataRows doc flight_type).filter
        (TAMSScraperFinal.rowEligible
          (TAMSScraperFinal.parseHeaders doc flight_type))).length ∧
    ∀ rec ∈ TAMSScraperFinal.parse_flights doc flight_type,
      (rec.map Prod.fst).Nodup ∧
      (∀ k ∈ rec.map Prod.fst,
        k = "Tipo" ∨ k ∈ TAMSScraperFinal.parseHeaders doc flight_type) ∧
      ("Tipo" ∉ TAMSScraperFinal.parseHeaders doc flight_type →
        dictGet rec "Tipo" = some flight_type) := by
  rw [parse_flights_eq_parseRows]
  constructor
  · exact parseRows_length _ _ _
  · intro rec hrec
    obtain ⟨row, _, he⟩ := parseRows_mem _ _ _ rec hrec
    subst he
    unfold TAMSScraperFinal.buildFlight
    refine ⟨?_, ?_, ?_⟩
    · exact buildFields_keys_nodup _ _ 0 _ (by simp)
    · intro k hk
      rcases buildFields_keys_subset _ _ 0 _ k hk with h | h
      · left; simpa using h
      · right; exact h
    · intro hT
      rw [buildFields_dictGet_not_header _ "Tipo" hT _ 0 _]
      simp [dictGet]

/-- A grid whose single column is itself headed `Tipo`. -/
def tipoHeaderDoc : Doc :=
  ⟨[], [⟨"dgGrillaA",
    [⟨none, [⟨true, "Tipo", none⟩], []⟩,
     ⟨none, [⟨false, "X", none⟩], []⟩]⟩]⟩

/-- C9 counterexample.  When a header column is itself named `Tipo`,
that column's cell value overwrites the direction tag, so the emitted
record does not contain the direction tag as the claim states. -/
theorem parse_flights_tipo_header_overwrites :
    TAMSScraperFinal.parse_flights tipoHeaderDoc "Arribos" = [[("Tipo", "X")]] ∧
    ∀ rec ∈ TAMSScraperFinal.parse_flights tipoHeaderDoc "Arribos",
      dictGet rec "Tipo" ≠ some "Arribos" := by
  refine ⟨by decide, by decide⟩

/-- C9 witness: a concrete record of the arrivals grid has distinct
keys, keys within the header set plus the tag, and carries the tag. -/
theorem parse_flights_row_shape_witness :
    (([("Tipo", "Arribos"), ("Vuelo", "AR1000")] : Flight).map Prod.fst).Nodup ∧
    dictGet ([("Tipo", "Arribos"), ("Vuelo", "AR1000")] : Flight) "Tipo" =
      some "Arribos" :=
  ⟨((parse_flights_row_shape arrPage1Doc "Arribos").2
      [("Tipo", "Arribos"), ("Vuelo", "AR1000")] (by decide)).1,
   ((parse_flights_row_shape arrPage1Doc "Arribos").2
      [("Tipo", "Arribos"), ("Vuelo", "AR1000")] (by decide)).2.2 (by decide)⟩
